import Mathlib

/-!
Verification of the serial-gateway program (src/app.py): device transport
(fetch_from_serial / connect_to_serial), the Flask endpoint handlers built on
it, and the SQLite retention store (upsert / range query / pruning).

Modelling conventions:
* The external JSON library (json.loads) is modelled as an abstract parameter
  jparse : String -> Option Reply; a Reply is the parsed JSON object, an
  association list of string keys to scalar values (Python dict from JSON).
* The serial line stream is modelled as a list of TimedLine: content is the
  decoded and stripped text of one readline() result, and t is the elapsed
  time (seconds since start_time) observed by the while-condition
  time.time() - start_time just before that line is read.  An exhausted list
  stands for readline() returning empty lines until the deadline passes.
* SQLite tables are lists of rows in storage order; INSERT OR REPLACE on the
  TEXT PRIMARY KEY column replaces the row with the equal key; SELECT without
  ORDER BY returns the matching rows in storage order; TEXT comparison is the
  usual lexicographic string order.
-/

set_option linter.unusedVariables false

/-- Lexicographic order on character lists: the order SQLite's memcmp TEXT
comparison induces on the ASCII timestamps stored here. -/
def charListLt : List Char → List Char → Bool
  | [], [] => false
  | [], _ :: _ => true
  | _ :: _, [] => false
  | a :: as, b :: bs => if a < b then true else if a == b then charListLt as bs else false

/-- The SQL TEXT comparison a < b. -/
def strLt (a b : String) : Bool :=
  charListLt a.data b.data

/-- The SQL TEXT comparison a >= b. -/
def strGe (a b : String) : Bool :=
  !strLt a b

/-- Python str.startswith with a one-character argument. -/
def strStarts (s : String) (c : Char) : Bool :=
  match s.data with
  | [] => false
  | a :: _ => a == c

/-- Python str.endswith with a one-character argument. -/
def strEnds (s : String) (c : Char) : Bool :=
  match s.data.getLast? with
  | some a => a == c
  | none => false

/-- A scalar JSON value as it appears in the device replies. -/
inductive JVal where
  | num (q : Rat)
  | str (s : String)
deriving DecidableEq, Repr

/-- A parsed JSON object: a Python dict, with string keys. -/
abbrev Reply := List (String × JVal)

/-- dict.get(k) without a default: the first binding of k, if any. -/
def Reply.get? (d : Reply) (k : String) : Option JVal :=
  List.lookup k d

/-- dict.get(k, default). -/
def Reply.getD (d : Reply) (k : String) (v : JVal) : JVal :=
  (List.lookup k d).getD v

/-- Python truthiness of a dict: an empty dict is falsy. -/
def Reply.truthy (d : Reply) : Bool :=
  !d.isEmpty

/-- DATA_TIMEOUT = 5 (src/app.py line 18): the overall reply deadline. -/
def DATA_TIMEOUT : Nat := 5

/-- One line delivered by ser.readline(), already decoded and stripped;
t is the elapsed time the while-condition at src/app.py line 83 observes
just before this line is read. -/
structure TimedLine where
  t : Nat
  content : String
deriving DecidableEq, Repr

/-- The open serial handle (pyserial Serial object), as far as the program
inspects it: only is_open is ever read. -/
structure SerialConn where
  is_open : Bool
deriving DecidableEq, Repr

/-- The global variable ser (src/app.py line 23): None or a handle. -/
abbrev SerState := Option SerialConn

/-- The test at src/app.py line 69: ser is not None and ser.is_open. -/
def connected (st : SerState) : Bool :=
  match st with
  | some c => c.is_open
  | none => false

/-- The environment one call runs in: what find_serial_port returns, whether
serial.Serial(...) succeeds, whether a SerialException is raised during the
flush/write/read section, and the stream of reply lines. -/
structure Env where
  found_port : Option String
  open_ok : Bool
  io_error : Bool
  lines : List TimedLine

/-- connect_to_serial (src/app.py lines 40-58): find a port; on success open
it (on an open failure ser is set to None); with no port found ser is left
unchanged.  Returns (success flag, new value of ser). -/
def connect_to_serial (env : Env) (st : SerState) : Bool × SerState :=
  match env.found_port with
  | some _ => if env.open_ok then (true, some ⟨true⟩) else (false, none)
  | none => (false, st)

/-- The classification applied to one non-empty line at src/app.py lines
87-94: it is returned iff it is brace-bounded and jparse succeeds on it. -/
def goodLine (jparse : String → Option Reply) (s : String) : Bool :=
  strStarts s '\x7b' && strEnds s '\x7d' && (jparse s).isSome

/-- The while loop of src/app.py lines 83-95: while the elapsed time is below
DATA_TIMEOUT, read a line; skip empty lines; on a brace-bounded line return
the parse when it succeeds, otherwise log and keep reading; skip any other
line as noise.  When the deadline check fails (or the stream is exhausted,
which stands for readline timing out until the deadline) the loop falls
through to return None at line 97. -/
def fetch_loop (jparse : String → Option Reply) : List TimedLine → Option Reply
  | [] => none
  | l :: rest =>
    if l.t < DATA_TIMEOUT then
      if l.content ≠ "" then
        if strStarts l.content '\x7b' && strEnds l.content '\x7d' then
          match jparse l.content with
          | some d => some d
          | none => fetch_loop jparse rest
        else fetch_loop jparse rest
      else fetch_loop jparse rest
    else none

/-- The body of the with serial_lock block, src/app.py lines 74-101: flush,
write the command, then the read loop; a SerialException anywhere in it sets
ser to None and returns None. -/
def fetch_locked (jparse : String → Option Reply) (env : Env) (st : SerState) :
    Option Reply × SerState :=
  if env.io_error then (none, none)
  else (fetch_loop jparse env.lines, st)

/-- fetch_from_serial (src/app.py lines 62-101): if ser is absent or closed,
attempt connect_to_serial and return None on failure; otherwise run the
locked flush/write/read cycle.  The command string is written to the device
and does not otherwise influence the model.  Returns (result, new ser). -/
def fetch_from_serial (jparse : String → Option Reply) (env : Env)
    (st : SerState) (command : String) : Option Reply × SerState :=
  if connected st then fetch_locked jparse env st
  else
    match connect_to_serial env st with
    | (true, st1) => fetch_locked jparse env st1
    | (false, st1) => (none, st1)

/-- A Flask response as far as the claims inspect it: the HTTP status code
and whether the JSON body reports success (the error branches return 500 and
an error body; jsonify defaults to 200). -/
structure HttpResp where
  status : Nat
  ok : Bool
deriving DecidableEq, Repr

/-- turn_relay_on (src/app.py lines 209-214): POST /r/on sends r1 and
succeeds iff the reply is truthy and its value field equals the string ON. -/
def turn_relay_on (jparse : String → Option Reply) (env : Env) (st : SerState) :
    HttpResp × SerState :=
  let r := fetch_from_serial jparse env st "r1"
  match r.1 with
  | some d =>
    if d.truthy && (d.get? "value" == some (JVal.str "ON")) then (⟨200, true⟩, r.2)
    else (⟨500, false⟩, r.2)
  | none => (⟨500, false⟩, r.2)

/-- turn_relay_off (src/app.py lines 216-221): POST /r/off sends r0 and
succeeds iff the reply is truthy and its value field equals the string OFF. -/
def turn_relay_off (jparse : String → Option Reply) (env : Env) (st : SerState) :
    HttpResp × SerState :=
  let r := fetch_from_serial jparse env st "r0"
  match r.1 with
  | some d =>
    if d.truthy && (d.get? "value" == some (JVal.str "OFF")) then (⟨200, true⟩, r.2)
    else (⟨500, false⟩, r.2)
  | none => (⟨500, false⟩, r.2)

/-- The JSON body of a successful GET /s/latest: the three solar fields with
dict.get defaults of the string N/A. -/
structure SolarBody where
  voltage_V : JVal
  current_mA : JVal
  power_mW : JVal
deriving DecidableEq, Repr

/-- get_s_pwr (src/app.py lines 244-254): GET /s/latest sends s; on a truthy
reply it returns 200 with each field taken by dict.get with default N/A; a
None or empty (falsy) reply yields the 500 error. -/
def get_s_pwr (jparse : String → Option Reply) (env : Env) (st : SerState) :
    Option SolarBody × SerState :=
  let r := fetch_from_serial jparse env st "s"
  match r.1 with
  | some d =>
    if d.truthy then
      (some ⟨d.getD "voltage_V" (JVal.str "N/A"), d.getD "current_mA" (JVal.str "N/A"),
        d.getD "power_mW" (JVal.str "N/A")⟩, r.2)
    else (none, r.2)
  | none => (none, r.2)

/-- set_auto_mode (src/app.py lines 354-358): POST /settings/auto sends auto,
discards the result of the exchange, and returns the success body with 200
unconditionally. -/
def set_auto_mode (jparse : String → Option Reply) (env : Env) (st : SerState) :
    HttpResp × SerState :=
  let r := fetch_from_serial jparse env st "auto"
  (⟨200, true⟩, r.2)

/-- set_manual_mode (src/app.py lines 360-364): POST /settings/manual sends
manual, discards the result, and returns success with 200 unconditionally. -/
def set_manual_mode (jparse : String → Option Reply) (env : Env) (st : SerState) :
    HttpResp × SerState :=
  let r := fetch_from_serial jparse env st "manual"
  (⟨200, true⟩, r.2)

/-- The response of a threshold-setting endpoint: 400 when the value query
parameter is missing, otherwise 200 with the echoed new_value (dict.get of
value, which may be absent) or the 500 error. -/
inductive ThreshResp where
  | ok (new_value : Option JVal)
  | badRequest
  | err
deriving DecidableEq, Repr

/-- set_on_threshold (src/app.py lines 366-375): POST /settings/set_on_V
requires the value parameter (else 400), sends set_on_V value, and succeeds
iff the reply is truthy and its command field equals set_on_V. -/
def set_on_threshold (jparse : String → Option Reply) (env : Env) (st : SerState)
    (value : Option String) : ThreshResp × SerState :=
  match value with
  | none => (ThreshResp.badRequest, st)
  | some v =>
    let r := fetch_from_serial jparse env st ("set_on_V " ++ v)
    match r.1 with
    | some d =>
      if d.truthy && (d.get? "command" == some (JVal.str "set_on_V")) then
        (ThreshResp.ok (d.get? "value"), r.2)
      else (ThreshResp.err, r.2)
    | none => (ThreshResp.err, r.2)

/-- set_off_threshold (src/app.py lines 377-386): POST /settings/set_off_V,
the same shape with command set_off_V. -/
def set_off_threshold (jparse : String → Option Reply) (env : Env) (st : SerState)
    (value : Option String) : ThreshResp × SerState :=
  match value with
  | none => (ThreshResp.badRequest, st)
  | some v =>
    let r := fetch_from_serial jparse env st ("set_off_V " ++ v)
    match r.1 with
    | some d =>
      if d.truthy && (d.get? "command" == some (JVal.str "set_off_V")) then
        (ThreshResp.ok (d.get? "value"), r.2)
      else (ThreshResp.err, r.2)
    | none => (ThreshResp.err, r.2)

/-- A row of temperature_readings (src/app.py lines 115-121): timestamp TEXT
PRIMARY KEY, indoor_temp_C REAL, outdoor_temp_C REAL. -/
structure TempRow where
  timestamp : String
  indoor_temp_C : Rat
  outdoor_temp_C : Rat
deriving DecidableEq, Repr

/-- A row of solar_readings (src/app.py lines 122-128): timestamp TEXT
PRIMARY KEY, voltage_V REAL, current_mA REAL, power_mW REAL. -/
structure SolarRow where
  timestamp : String
  voltage_V : Rat
  current_mA : Rat
  power_mW : Rat
deriving DecidableEq, Repr

/-- SQLite INSERT OR REPLACE keyed by a TEXT PRIMARY KEY: any existing row
with the same key is removed and the new row is stored. -/
def upsertBy {α : Type} (key : α → String) (tbl : List α) (r : α) : List α :=
  tbl.filter (fun x => key x != key r) ++ [r]

/-- The INSERT OR REPLACE INTO temperature_readings of
store_temperature_data_job (src/app.py lines 149-152). -/
def upsertTemp (tbl : List TempRow) (r : TempRow) : List TempRow :=
  upsertBy TempRow.timestamp tbl r

/-- The INSERT OR REPLACE INTO solar_readings of store_solar_data_job
(src/app.py lines 176-179). -/
def upsertSolar (tbl : List SolarRow) (r : SolarRow) : List SolarRow :=
  upsertBy SolarRow.timestamp tbl r

/-- The PRIMARY KEY invariant of a table: no two rows share a timestamp. -/
def noDupKeys {α : Type} (key : α → String) (tbl : List α) : Prop :=
  (tbl.map key).Nodup

/-- get_o_24h (src/app.py lines 266-274): SELECT timestamp, outdoor_temp_C
FROM temperature_readings WHERE timestamp >= boundary, with no ORDER BY, so
rows come back in storage order.  The boundary parameter stands for the
computed (now - 24h).isoformat() string. -/
def get_o_24h (tbl : List TempRow) (boundary : String) : List (String × Rat) :=
  (tbl.filter (fun r => strGe r.timestamp boundary)).map
    (fun r => (r.timestamp, r.outdoor_temp_C))

/-- get_t_24h (src/app.py lines 306-314): SELECT * FROM temperature_readings
WHERE timestamp >= boundary, no ORDER BY, rows in storage order. -/
def get_t_24h (tbl : List TempRow) (boundary : String) : List TempRow :=
  tbl.filter (fun r => strGe r.timestamp boundary)

/-- What prune_old_data_job leaves behind and reports: the two tables after
the deletes and the two cursor.rowcount values. -/
structure PruneResult where
  temp : List TempRow
  solar : List SolarRow
  deleted_temp_count : Nat
  deleted_solar_count : Nat
deriving DecidableEq, Repr

/-- prune_old_data_job (src/app.py lines 188-205): DELETE FROM each table
WHERE timestamp < cutoff_iso; rowcount is the number of rows each DELETE
removed.  The cutoff_iso parameter stands for
(datetime.now() - timedelta(days=2)).isoformat(). -/
def prune_old_data_job (ttbl : List TempRow) (stbl : List SolarRow)
    (cutoff_iso : String) : PruneResult :=
  { temp := ttbl.filter (fun r => !strLt r.timestamp cutoff_iso)
    solar := stbl.filter (fun r => !strLt r.timestamp cutoff_iso)
    deleted_temp_count := (ttbl.filter (fun r => strLt r.timestamp cutoff_iso)).length
    deleted_solar_count := (stbl.filter (fun r => strLt r.timestamp cutoff_iso)).length }

/-- One serial-port access of a fetch_from_serial call, tagged with whether
serial_lock is held at that point. -/
inductive SerOp where
  | openPort
  | flushInput
  | writeCmd
  | readLine
deriving DecidableEq, Repr

/-- An event of the access trace: which port operation, and whether the
thread holds serial_lock while performing it. -/
structure Ev where
  op : SerOp
  locked : Bool
deriving DecidableEq, Repr

/-- The serial-port access trace of one fetch_from_serial call, read off the
source order: when reconnection is needed, connect_to_serial (called at line
71, before the with serial_lock block at line 74) opens the port and flushes
it (lines 49-51) with the lock not held; then inside the lock come the flush
(line 77), the command write (line 79) and the readline calls of the loop
(line 84), nReads of them. -/
def fetch_trace (needsConnect : Bool) (nReads : Nat) : List Ev :=
  (if needsConnect then [⟨SerOp.openPort, false⟩, ⟨SerOp.flushInput, false⟩] else [])
    ++ [⟨SerOp.flushInput, true⟩, ⟨SerOp.writeCmd, true⟩]
    ++ List.replicate nReads ⟨SerOp.readLine, true⟩

/-- A parse function for concrete instantiations: recognises exactly the
line with the single field a. -/
def jparseT : String → Option Reply := fun s =>
  if s = "\x7b\"a\":1\x7d" then some [("a", JVal.num 1)] else none

/-- A parse function that fails on every line (no line of the stream is
protocol traffic). -/
def jparse0 : String → Option Reply := fun _ => none

/-- A parse function recognising exactly the line with the single field w,
a reply that carries none of the fields the facade operations require. -/
def jparseS : String → Option Reply := fun s =>
  if s = "\x7b\"w\":1\x7d" then some [("w", JVal.num 1)] else none

/-- An environment with no discoverable serial port and no reply lines. -/
def envOffline : Env := ⟨none, true, false, []⟩

/-- An environment whose device replies with the single line the jparseS
function recognises, well before the deadline. -/
def envSolar : Env := ⟨some "p", true, false, [⟨1, "\x7b\"w\":1\x7d"⟩]⟩

/-- Stepping over one line that is not a valid JSON object (empty, noise, or
brace-bounded but unparseable) read before the deadline keeps the loop
going. -/
theorem fetch_loop_cons_not_good (jparse : String → Option Reply) (l : TimedLine)
    (rest : List TimedLine) (hlt : l.t < DATA_TIMEOUT)
    (hg : goodLine jparse l.content = false) :
    fetch_loop jparse (l :: rest) = fetch_loop jparse rest := by
  by_cases he : l.content = ""
  · simp [fetch_loop, hlt, he]
  · by_cases hb : (strStarts l.content '\x7b' && strEnds l.content '\x7d') = true
    · cases hj : jparse l.content with
      | some d =>
        exfalso
        rw [goodLine, hb, hj] at hg
        simp at hg
      | none => simp [fetch_loop, hlt, he, hb, hj]
    · simp [fetch_loop, hlt, he, hb]

/-- A prefix of lines none of which is a valid JSON object, all read before
the deadline, is skipped entirely. -/
theorem fetch_loop_skip (jparse : String → Option Reply) (pre rest : List TimedLine)
    (hpre : ∀ l ∈ pre, goodLine jparse l.content = false)
    (ht : ∀ l ∈ pre, l.t < DATA_TIMEOUT) :
    fetch_loop jparse (pre ++ rest) = fetch_loop jparse rest := by
  induction pre with
  | nil => rfl
  | cons l ls ih =>
    rw [List.cons_append,
      fetch_loop_cons_not_good jparse l (ls ++ rest) (ht l (List.mem_cons_self l ls))
        (hpre l (List.mem_cons_self l ls))]
    exact ih (fun x hx => hpre x (List.mem_cons_of_mem l hx))
      (fun x hx => ht x (List.mem_cons_of_mem l hx))

/-- A valid JSON object line read before the deadline is returned parsed. -/
theorem fetch_loop_cons_good (jparse : String → Option Reply) (l : TimedLine)
    (rest : List TimedLine) (hlt : l.t < DATA_TIMEOUT)
    (hg : goodLine jparse l.content = true) :
    fetch_loop jparse (l :: rest) = jparse l.content := by
  rw [goodLine, Bool.and_eq_true, Bool.and_eq_true] at hg
  obtain ⟨⟨h1, h2⟩, h3⟩ := hg
  have he : l.content ≠ "" := by
    intro h
    rw [h] at h1
    revert h1
    decide
  cases hj : jparse l.content with
  | none => rw [hj] at h3; simp at h3
  | some d => simp [fetch_loop, hlt, he, h1, h2, hj]

/-- If every valid JSON object line of the stream is only reached at or
after the deadline, the loop returns None. -/
theorem fetch_loop_none_of_no_good (jparse : String → Option Reply)
    (lines : List TimedLine)
    (h : ∀ l ∈ lines, goodLine jparse l.content = true → DATA_TIMEOUT ≤ l.t) :
    fetch_loop jparse lines = none := by
  induction lines with
  | nil => rfl
  | cons l ls ih =>
    by_cases hlt : l.t < DATA_TIMEOUT
    · have hg : goodLine jparse l.content = false := by
        cases hgb : goodLine jparse l.content
        · rfl
        · exact absurd (h l (List.mem_cons_self l ls) hgb) (Nat.not_le.mpr hlt)
      rw [fetch_loop_cons_not_good jparse l ls hlt hg]
      exact ih (fun x hx => h x (List.mem_cons_of_mem l hx))
    · simp [fetch_loop, hlt]

/-- C1: if the reply stream is a block of non-protocol lines (empty lines,
noise, or brace-bounded lines the JSON parser rejects) followed by the first
line that is brace-bounded and parses, all observed within the deadline,
then fetch_from_serial returns that first line's parse; earlier parse
failures do not abort the exchange. -/
theorem fetch_returns_first_valid_json (jparse : String → Option Reply) (env : Env)
    (st : SerState) (command : String) (pre post : List TimedLine) (g : TimedLine)
    (hconn : connected st = true)
    (hio : env.io_error = false)
    (hlines : env.lines = pre ++ g :: post)
    (hpre : ∀ l ∈ pre, goodLine jparse l.content = false)
    (hpret : ∀ l ∈ pre, l.t < DATA_TIMEOUT)
    (hgt : g.t < DATA_TIMEOUT)
    (hgood : goodLine jparse g.content = true) :
    (fetch_from_serial jparse env st command).1 = jparse g.content := by
  rw [fetch_from_serial, if_pos hconn, fetch_locked, if_neg (by simp [hio]), hlines]
  simp only [fetch_loop_skip jparse pre _ hpre hpret,
    fetch_loop_cons_good jparse g post hgt hgood]

/-- C1 witness: with empty, noise and corrupted-JSON lines ahead of the
valid one, the exchange returns the parse of the valid line. -/
theorem fetch_returns_first_valid_json_witness :
    (fetch_from_serial jparseT
      ⟨some "p", true, false,
        [⟨1, ""⟩, ⟨2, "hello"⟩, ⟨3, "\x7bbad\x7d"⟩, ⟨4, "\x7b\"a\":1\x7d"⟩]⟩
      (some ⟨true⟩) "t").1 = some [("a", JVal.num 1)] :=
  (fetch_returns_first_valid_json jparseT
    ⟨some "p", true, false,
      [⟨1, ""⟩, ⟨2, "hello"⟩, ⟨3, "\x7bbad\x7d"⟩, ⟨4, "\x7b\"a\":1\x7d"⟩]⟩
    (some ⟨true⟩) "t" [⟨1, ""⟩, ⟨2, "hello"⟩, ⟨3, "\x7bbad\x7d"⟩] [] ⟨4, "\x7b\"a\":1\x7d"⟩
    (by decide) rfl rfl (by decide) (by decide) (by decide) (by decide)).trans (by decide)

/-- C2: if no line that is a brace-bounded, parseable JSON object is reached
before the DATA_TIMEOUT deadline, fetch_from_serial returns None (and leaves
the connection handle as it was). -/
theorem fetch_times_out (jparse : String → Option Reply) (env : Env) (st : SerState)
    (command : String)
    (hconn : connected st = true)
    (hio : env.io_error = false)
    (hng : ∀ l ∈ env.lines, goodLine jparse l.content = true → DATA_TIMEOUT ≤ l.t) :
    fetch_from_serial jparse env st command = (none, st) := by
  rw [fetch_from_serial, if_pos hconn, fetch_locked, if_neg (by simp [hio]),
    fetch_loop_none_of_no_good jparse env.lines hng]

/-- C2 witness: a noise line and a valid JSON line that only shows up at
elapsed time 6, past the 5-unit deadline, yield None. -/
theorem fetch_times_out_witness :
    fetch_from_serial jparseT
      ⟨some "p", true, false, [⟨1, "noise"⟩, ⟨6, "\x7b\"a\":1\x7d"⟩]⟩
      (some ⟨true⟩) "t" = (none, some ⟨true⟩) :=
  fetch_times_out jparseT
    ⟨some "p", true, false, [⟨1, "noise"⟩, ⟨6, "\x7b\"a\":1\x7d"⟩]⟩
    (some ⟨true⟩) "t" (by decide) rfl (by decide)

/-- C3: called while disconnected (ser None or closed), when either no port
is discoverable or opening the discovered port fails, fetch_from_serial
returns None and the state stays disconnected. -/
theorem fetch_unavailable (jparse : String → Option Reply) (env : Env) (st : SerState)
    (command : String)
    (hconn : connected st = false)
    (hna : env.found_port = none ∨ env.open_ok = false) :
    (fetch_from_serial jparse env st command).1 = none ∧
      connected (fetch_from_serial jparse env st command).2 = false := by
  rcases hna with h | h
  · simp [fetch_from_serial, hconn, connect_to_serial, h]
  · cases hp : env.found_port with
    | none => simp [fetch_from_serial, hconn, connect_to_serial, hp]
    | some p =>
      rw [fetch_from_serial, if_neg (by simp [hconn]), connect_to_serial, hp]
      rw [if_neg (by simp [h])]
      exact ⟨rfl, rfl⟩

/-- C3 witness: with ser = None and no discoverable port, the call returns
None and the state is still disconnected. -/
theorem fetch_unavailable_witness :
    (fetch_from_serial jparse0 envOffline none "t").1 = none ∧
      connected (fetch_from_serial jparse0 envOffline none "t").2 = false :=
  fetch_unavailable jparse0 envOffline none "t" rfl (Or.inl rfl)

/-- C4 counterexample: with no device discoverable the exchange of auto
fails (returns None), yet set_auto_mode still reports success with 200, so
the operation does not report success exactly when the exchange completes
without error. -/
theorem set_auto_mode_reports_success_on_failure :
    (set_auto_mode jparse0 envOffline none).1 = ⟨200, true⟩ ∧
      (fetch_from_serial jparse0 envOffline none "auto").1 = none := by
  constructor
  · rfl
  · rfl

/-- C4 amended: set_auto_mode and set_manual_mode send their command,
discard the exchange's outcome and report success with HTTP 200
unconditionally, for every environment and connection state. -/
theorem set_auto_mode_always_success (jparse : String → Option Reply) (env : Env)
    (st : SerState) :
    (set_auto_mode jparse env st).1 = ⟨200, true⟩ ∧
      (set_manual_mode jparse env st).1 = ⟨200, true⟩ := by
  constructor
  · rfl
  · rfl

/-- C5 counterexample: a truthy reply carrying none of the three required
solar fields makes get_s_pwr return a success body whose fields are all the
placeholder string N/A, a partial success the claim rules out. -/
theorem get_s_pwr_placeholder :
    (get_s_pwr jparseS envSolar (some ⟨true⟩)).1 =
      some ⟨JVal.str "N/A", JVal.str "N/A", JVal.str "N/A"⟩ := by decide

/-- C5 amended: a transport-level failure surfaces uniformly as an operation
failure for both the solar read and the threshold set, and a reply whose
command field is missing makes the threshold set fail; but a truthy reply
missing solar fields makes get_s_pwr succeed with N/A placeholders (shown by
the counterexample), so only the threshold operation fails on missing
required fields. -/
theorem facade_failure_uniformity (jparse : String → Option Reply)
    (env1 env2 env3 : Env) (st1 st2 st3 : SerState) (v : String) (d : Reply)
    (h1 : (fetch_from_serial jparse env1 st1 "s").1 = none)
    (h2 : (fetch_from_serial jparse env2 st2 ("set_on_V " ++ v)).1 = none)
    (h3 : (fetch_from_serial jparse env3 st3 ("set_on_V " ++ v)).1 = some d)
    (h4 : d.get? "command" = none) :
    (get_s_pwr jparse env1 st1).1 = none ∧
      (set_on_threshold jparse env2 st2 (some v)).1 = ThreshResp.err ∧
      (set_on_threshold jparse env3 st3 (some v)).1 = ThreshResp.err := by
  refine ⟨?_, ?_, ?_⟩
  · simp [get_s_pwr, h1]
  · simp [set_on_threshold, h2]
  · simp [set_on_threshold, h3, h4]

/-- C5 witness: concrete offline environments for the failure cases and a
concrete reply without a command field for the missing-field case. -/
theorem facade_failure_uniformity_witness :
    (get_s_pwr jparseS envOffline none).1 = none ∧
      (set_on_threshold jparseS envOffline none (some "1")).1 = ThreshResp.err ∧
      (set_on_threshold jparseS envSolar (some ⟨true⟩) (some "1")).1 = ThreshResp.err :=
  facade_failure_uniformity jparseS envOffline envOffline envSolar none none
    (some ⟨true⟩) "1" [("w", JVal.num 1)] (by decide) (by decide) (by decide) (by decide)

/-- The first binding a lookup returns shows the dict is truthy. -/
theorem Reply.truthy_of_get (d : Reply) (k : String) (v : JVal)
    (h : d.get? k = some v) : d.truthy = true := by
  cases d with
  | nil => simp [Reply.get?, List.lookup] at h
  | cons p ps => rfl

/-- C10: turn_relay_on succeeds (200 with a success body) iff the exchange
of r1 returns a reply whose value field is the string ON, and otherwise
answers 500 with an error body; turn_relay_off likewise with r0 and OFF. -/
theorem relay_success_iff (jparse : String → Option Reply) (env : Env) (st : SerState) :
    ((turn_relay_on jparse env st).1 = ⟨200, true⟩ ↔
      (∃ d, (fetch_from_serial jparse env st "r1").1 = some d ∧
        d.get? "value" = some (JVal.str "ON"))) ∧
    ((turn_relay_on jparse env st).1 = ⟨200, true⟩ ∨
      (turn_relay_on jparse env st).1 = ⟨500, false⟩) ∧
    ((turn_relay_off jparse env st).1 = ⟨200, true⟩ ↔
      (∃ d, (fetch_from_serial jparse env st "r0").1 = some d ∧
        d.get? "value" = some (JVal.str "OFF"))) ∧
    ((turn_relay_off jparse env st).1 = ⟨200, true⟩ ∨
      (turn_relay_off jparse env st).1 = ⟨500, false⟩) := by
  refine ⟨?_, ?_, ?_, ?_⟩
  · cases hr : (fetch_from_serial jparse env st "r1").1 with
    | none => simp [turn_relay_on, hr]
    | some d =>
      simp only [turn_relay_on, hr]
      by_cases hv : d.get? "value" = some (JVal.str "ON")
      · rw [if_pos (by simp [Reply.truthy_of_get d _ _ hv, hv])]
        simp [hv]
      · rw [if_neg (by simp [hv])]
        simp [hv]
  · cases hr : (fetch_from_serial jparse env st "r1").1 with
    | none => simp [turn_relay_on, hr]
    | some d =>
      simp only [turn_relay_on, hr]
      by_cases hc : (d.truthy && (d.get? "value" == some (JVal.str "ON"))) = true
      · rw [if_pos hc]; left; rfl
      · rw [if_neg hc]; right; rfl
  · cases hr : (fetch_from_serial jparse env st "r0").1 with
    | none => simp [turn_relay_off, hr]
    | some d =>
      simp only [turn_relay_off, hr]
      by_cases hv : d.get? "value" = some (JVal.str "OFF")
      · rw [if_pos (by simp [Reply.truthy_of_get d _ _ hv, hv])]
        simp [hv]
      · rw [if_neg (by simp [hv])]
        simp [hv]
  · cases hr : (fetch_from_serial jparse env st "r0").1 with
    | none => simp [turn_relay_off, hr]
    | some d =>
      simp only [turn_relay_off, hr]
      by_cases hc : (d.truthy && (d.get? "value" == some (JVal.str "OFF"))) = true
      · rw [if_pos hc]; left; rfl
      · rw [if_neg hc]; right; rfl

/-- Filtering for a key right after filtering it away yields nothing. -/
theorem filter_ne_then_eq {α : Type} (key : α → String) (k : String) (l : List α) :
    ((l.filter (fun x => key x != k)).filter (fun x => key x == k)) = [] := by
  induction l with
  | nil => rfl
  | cons a as ih =>
    rw [List.filter_cons]
    cases h : key a == k
    · rw [if_pos (by simp [bne, h]), List.filter_cons, if_neg (by simp [h])]
      exact ih
    · rw [if_neg (by simp [bne, h])]
      exact ih

/-- An upsert keeps exactly one row under its own key. -/
theorem upsertBy_filter_key {α : Type} (key : α → String) (tbl : List α) (r : α) :
    (upsertBy key tbl r).filter (fun x => key x == key r) = [r] := by
  rw [upsertBy, List.filter_append, filter_ne_then_eq key (key r) tbl]
  simp

/-- An upsert preserves the primary-key invariant. -/
theorem upsertBy_nodup {α : Type} (key : α → String) (tbl : List α) (r : α)
    (h : noDupKeys key tbl) : noDupKeys key (upsertBy key tbl r) := by
  rw [noDupKeys, upsertBy, List.map_append]
  apply List.Nodup.append
  · exact h.sublist ((List.filter_sublist tbl).map key)
  · simp
  · intro a ha hb
    simp only [List.map_cons, List.map_nil, List.mem_singleton] at hb
    simp only [List.mem_map, List.mem_filter] at ha
    obtain ⟨x, ⟨hx, hne⟩, rfl⟩ := ha
    rw [hb] at hne
    simp at hne

/-- C6: upsert is last-write-wins by primary key, in both series: after two
upserts with the same timestamp only the second row is stored under that
key, and an upsert never duplicates a timestamp in a table satisfying the
primary-key invariant. -/
theorem upsert_last_write_wins (ttbl : List TempRow) (r1 r2 : TempRow)
    (stbl : List SolarRow) (s1 s2 : SolarRow)
    (hk : r1.timestamp = r2.timestamp)
    (hks : s1.timestamp = s2.timestamp)
    (hnd : noDupKeys TempRow.timestamp ttbl)
    (hnds : noDupKeys SolarRow.timestamp stbl) :
    (upsertTemp (upsertTemp ttbl r1) r2).filter
        (fun x => x.timestamp == r2.timestamp) = [r2] ∧
      noDupKeys TempRow.timestamp (upsertTemp (upsertTemp ttbl r1) r2) ∧
      (upsertSolar (upsertSolar stbl s1) s2).filter
        (fun x => x.timestamp == s2.timestamp) = [s2] ∧
      noDupKeys SolarRow.timestamp (upsertSolar (upsertSolar stbl s1) s2) := by
  refine ⟨?_, ?_, ?_, ?_⟩
  · exact upsertBy_filter_key TempRow.timestamp (upsertTemp ttbl r1) r2
  · exact upsertBy_nodup TempRow.timestamp _ r2
      (upsertBy_nodup TempRow.timestamp ttbl r1 hnd)
  · exact upsertBy_filter_key SolarRow.timestamp (upsertSolar stbl s1) s2
  · exact upsertBy_nodup SolarRow.timestamp _ s2
      (upsertBy_nodup SolarRow.timestamp stbl s1 hnds)

/-- C6 witness: upserting two different value rows under the same timestamp
into a one-row store leaves only the second row under that key, with no
duplicate timestamps. -/
theorem upsert_last_write_wins_witness :
    (upsertTemp (upsertTemp [TempRow.mk "k" 9 9] (TempRow.mk "a" 1 2))
        (TempRow.mk "a" 3 4)).filter (fun x => x.timestamp == "a") = [TempRow.mk "a" 3 4] ∧
      noDupKeys TempRow.timestamp
        (upsertTemp (upsertTemp [TempRow.mk "k" 9 9] (TempRow.mk "a" 1 2))
          (TempRow.mk "a" 3 4)) ∧
      (upsertSolar (upsertSolar [] (SolarRow.mk "b" 1 2 3))
        (SolarRow.mk "b" 4 5 6)).filter (fun x => x.timestamp == "b") =
        [SolarRow.mk "b" 4 5 6] ∧
      noDupKeys SolarRow.timestamp
        (upsertSolar (upsertSolar [] (SolarRow.mk "b" 1 2 3)) (SolarRow.mk "b" 4 5 6)) :=
  upsert_last_write_wins [TempRow.mk "k" 9 9] (TempRow.mk "a" 1 2) (TempRow.mk "a" 3 4)
    [] (SolarRow.mk "b" 1 2 3) (SolarRow.mk "b" 4 5 6) rfl rfl
    (by unfold noDupKeys; decide) (by unfold noDupKeys; decide)

/-- The storage-order table obtained by inserting the later timestamp b
before the earlier timestamp a, as the scheduled jobs would on out-of-order
polls. -/
def tblOutOfOrder : List TempRow :=
  upsertTemp (upsertTemp [] (TempRow.mk "b" 1 2)) (TempRow.mk "a" 3 4)

/-- C7 counterexample: both rows are at or after the boundary a, yet the
/o/24-style query returns them in storage order b before a, which is not
ascending by timestamp (a is strictly below b), so the claimed ordering does
not hold. -/
theorem queryRecent_not_sorted :
    get_o_24h tblOutOfOrder "a" = [("b", 2), ("a", 4)] ∧ strLt "a" "b" = true := by
  decide

/-- C7 amended: the recency queries return exactly the readings whose
timestamp is at or after the boundary, boundary inclusive — a projected row
is returned iff its timestamp satisfies the SQL comparison — but in table
storage order, since the queries have no ORDER BY. -/
theorem queryRecent_membership (tbl : List TempRow) (boundary : String) (r : TempRow)
    (hnd : noDupKeys TempRow.timestamp tbl) (hr : r ∈ tbl) :
    ((r.timestamp, r.outdoor_temp_C) ∈ get_o_24h tbl boundary ↔
      strGe r.timestamp boundary = true) ∧
    (r ∈ get_t_24h tbl boundary ↔ strGe r.timestamp boundary = true) := by
  constructor
  · constructor
    · intro hm
      rw [get_o_24h] at hm
      obtain ⟨x, hx, hpair⟩ := List.mem_map.mp hm
      obtain ⟨hxt, hxge⟩ := List.mem_filter.mp hx
      have hkey : x.timestamp = r.timestamp := congrArg Prod.fst hpair
      have hxr : x = r := List.inj_on_of_nodup_map hnd hxt hr hkey
      rw [← hxr]
      exact hxge
    · intro hge
      rw [get_o_24h]
      exact List.mem_map.mpr ⟨r, List.mem_filter.mpr ⟨hr, hge⟩, rfl⟩
  · constructor
    · intro hm
      exact (List.mem_filter.mp hm).2
    · intro hge
      exact List.mem_filter.mpr ⟨hr, hge⟩

/-- C7 witness: a one-row table at the boundary itself is returned by both
queries, boundary inclusive. -/
theorem queryRecent_membership_witness :
    (((TempRow.mk "a" 1 2).timestamp, (TempRow.mk "a" 1 2).outdoor_temp_C) ∈
        get_o_24h [TempRow.mk "a" 1 2] "a" ↔
      strGe (TempRow.mk "a" 1 2).timestamp "a" = true) ∧
    (TempRow.mk "a" 1 2 ∈ get_t_24h [TempRow.mk "a" 1 2] "a" ↔
      strGe (TempRow.mk "a" 1 2).timestamp "a" = true) :=
  queryRecent_membership [TempRow.mk "a" 1 2] "a" (TempRow.mk "a" 1 2)
    (by unfold noDupKeys; decide) (List.mem_singleton.mpr rfl)

/-- The two filters by a predicate and its negation split a list's length. -/
theorem length_filter_split {α : Type} (p : α → Bool) (l : List α) :
    (l.filter p).length + (l.filter (fun a => !p a)).length = l.length := by
  induction l with
  | nil => rfl
  | cons a as ih =>
    cases h : p a
    · simp only [List.filter_cons, h]
      simp only [Bool.false_eq_true, if_false, Bool.not_false, if_true, List.length_cons]
      omega
    · simp only [List.filter_cons, h]
      simp only [if_true, Bool.not_true, Bool.false_eq_true, if_false, List.length_cons]
      omega

/-- C8: pruning keeps exactly the readings at or after the cutoff in both
series, the reported per-series counts equal the numbers of deleted rows,
and on the spec scenario (rows at T-3days and T-1hour, cutoff T-2days) only
the T-1hour row survives with one deletion reported. -/
theorem prune_deletes_exactly_older (ttbl : List TempRow) (stbl : List SolarRow)
    (cutoff : String) :
    (∀ r : TempRow, r ∈ (prune_old_data_job ttbl stbl cutoff).temp ↔
      r ∈ ttbl ∧ strLt r.timestamp cutoff = false) ∧
    (∀ s : SolarRow, s ∈ (prune_old_data_job ttbl stbl cutoff).solar ↔
      s ∈ stbl ∧ strLt s.timestamp cutoff = false) ∧
    (prune_old_data_job ttbl stbl cutoff).deleted_temp_count +
      (prune_old_data_job ttbl stbl cutoff).temp.length = ttbl.length ∧
    (prune_old_data_job ttbl stbl cutoff).deleted_solar_count +
      (prune_old_data_job ttbl stbl cutoff).solar.length = stbl.length ∧
    prune_old_data_job
        [TempRow.mk "2025-01-07T10:00:00" 1 2, TempRow.mk "2025-01-10T09:00:00" 3 4]
        [] "2025-01-08T10:00:00" =
      PruneResult.mk [TempRow.mk "2025-01-10T09:00:00" 3 4] [] 1 0 := by
  refine ⟨?_, ?_, ?_, ?_, ?_⟩
  · intro r
    simp [prune_old_data_job, List.mem_filter]
  · intro s
    simp [prune_old_data_job, List.mem_filter]
  · exact length_filter_split (fun r => strLt r.timestamp cutoff) ttbl
  · exact length_filter_split (fun s => strLt s.timestamp cutoff) stbl
  · decide

/-- C9 counterexample: the claim that the exclusive gate covers every serial
access of an exchange, the reconnection step included, is false: the access
trace of a reconnecting call contains accesses performed without the lock
held. -/
theorem fetch_trace_not_all_locked :
    ((fetch_trace true 1).all (fun e => e.locked)) = false := by decide

/-- C9 amended: serial_lock is held for the whole command-write and
reply-read cycle — every write and every readline of an exchange happens
with the lock held — but the reconnection step is performed before the lock
is taken: the accesses outside the lock are exactly the reconnection's port
open and flush, present only when the call reconnects. -/
theorem fetch_trace_lock_coverage (b : Bool) (n : Nat) :
    (∀ e ∈ fetch_trace b n, (e.op = SerOp.writeCmd ∨ e.op = SerOp.readLine) →
      e.locked = true) ∧
    (fetch_trace b n).filter (fun e => !e.locked) =
      (if b then [Ev.mk SerOp.openPort false, Ev.mk SerOp.flushInput false] else []) := by
  constructor
  · intro e he hop
    rw [fetch_trace] at he
    rcases List.mem_append.mp he with h1 | h2
    · rcases List.mem_append.mp h1 with hp | hm
      · cases b with
        | false => simp at hp
        | true =>
          simp only [if_true, List.mem_cons, List.not_mem_nil, or_false] at hp
          rcases hp with rfl | rfl <;>
            (rcases hop with h | h <;> exact absurd h (by decide))
      · simp only [List.mem_cons, List.not_mem_nil, or_false] at hm
        rcases hm with rfl | rfl <;> rfl
    · rw [List.eq_of_mem_replicate h2]
  · cases b with
    | true =>
      simp only [fetch_trace, if_true, List.filter_append]
      rw [List.filter_replicate]
      simp
    | false =>
      simp only [fetch_trace, Bool.false_eq_true, if_false, List.nil_append,
        List.filter_append]
      rw [List.filter_replicate]
      simp
